import Mathlib

/-!
Verification of the Bike_And_Car_Service_Agent repository.

This file gives a shallow embedding, in Lean 4, of the parts of the
repository that the specification's testable claims are about:

* `parse_date_string` from `Bike_Agent/main.py` (identical in
  `Async_Bike_Agent/bike_main.py`), including a faithful model of the
  CPython `_strptime` behaviour for the eleven explicit format strings
  the code tries, and the `dateutil` natural-language parser as an
  oracle (it is a third-party collaborator, not repository code);
* `GoogleCloudTTS.generate_speech` from `Bike_Agent/google_tts.py`,
  with the md5 hex digest, the synthesis backend and file I/O as
  oracle parameters and the cache directory contents as explicit state;
* the NLU wrappers `is_yes`, `extract_dates`, `detect_language` from
  `Bike_Agent/model.py`, with the LLM chains as oracles (`none`
  models an exception raised by the chain invocation);
* `add_selected_services` from `Bike_Agent/mongofetch.py` with the
  MongoDB client as an oracle;
* the `/voice` (Greeting) and `/handle-services` (HandleServices)
  request handlers from `Bike_Agent/main.py`, with the Twilio markup
  response modelled as a list of actions.

Python exceptions are modelled by `Option`/failure values: a function
that catches all exceptions and returns a default is embedded as a
total Lean function whose oracle inputs may signal failure.
-/

/-! ## Python string helpers -/

/-- Characters stripped by Python's `str.strip()` (ASCII whitespace,
including vertical tab and form feed). -/
def pyIsSpace (c : Char) : Bool :=
  c = ' ' || c = '\t' || c = '\n' || c = '\r' || c = '\x0b' || c = '\x0c'

/-- Python `str.strip()`. -/
def pyStrip (s : String) : String :=
  String.mk (((s.toList.dropWhile pyIsSpace).reverse.dropWhile pyIsSpace).reverse)

/-- Python `needle in haystack` substring test on strings. -/
def isSubstr (needle hay : String) : Bool :=
  hay.toList.tails.any (fun t => needle.toList.isPrefixOf t)

/-- Python `str(x)` on an `Optional[str]` argument: `None` prints as "None". -/
def pyStrOpt : Option String → String
  | none => "None"
  | some s => s

/-- Python `str(x)` on a bool: `True` / `False`. -/
def pyStrBool : Bool → String
  | true => "True"
  | false => "False"

/-- Python truthiness of an `Optional[str]`: `None` and `""` are falsy. -/
def pyTruthyOptStr : Option String → Bool
  | none => false
  | some s => s ≠ ""

/-- Python `str.lower()` (character-wise, as in the ASCII texts the
handlers deal with). -/
def pyLower (s : String) : String :=
  String.mk (s.toList.map Char.toLower)

/-- Python `str.upper()`. -/
def pyUpper (s : String) : String :=
  String.mk (s.toList.map Char.toUpper)

/-- Helper for `pySplitWs`: accumulate the current word (reversed). -/
def pySplitWsAux : List Char → List Char → List String
  | [], acc => if acc = [] then [] else [String.mk acc.reverse]
  | c :: rest, acc =>
    if pyIsSpace c then
      if acc = [] then pySplitWsAux rest []
      else String.mk acc.reverse :: pySplitWsAux rest []
    else pySplitWsAux rest (c :: acc)

/-- Python `str.split()` with no separator: split on whitespace runs,
dropping empty pieces. -/
def pySplitWs (s : String) : List String :=
  pySplitWsAux s.toList []

/-! ## Calendar dates

`datetime` values are modelled by their (year, month, day) triple; the
handlers under verification never read the time-of-day fields. -/

structure PyDate where
  year : Nat
  month : Nat
  day : Nat
deriving DecidableEq, Repr

/-- Gregorian leap-year rule (as implemented by Python `datetime`). -/
def isLeap (y : Nat) : Bool :=
  (y % 4 = 0 && y % 100 ≠ 0) || y % 400 = 0

/-- Number of days in a month. -/
def daysInMonth (y m : Nat) : Nat :=
  if m = 2 then (if isLeap y then 29 else 28)
  else if m = 4 ∨ m = 6 ∨ m = 9 ∨ m = 11 then 30
  else 31

/-- Days since 1970-01-01 (proleptic Gregorian, Hinnant's civil-from-days
inverse); total on `PyDate` but only used on valid dates with `year ≥ 1`. -/
def daysFromCivil (d : PyDate) : Int :=
  let y : Int := if d.month ≤ 2 then (d.year : Int) - 1 else (d.year : Int)
  let era : Int := (if 0 ≤ y then y else y - 399).fdiv 400
  let yoe : Int := y - era * 400
  let mp : Int := if d.month > 2 then (d.month : Int) - 3 else (d.month : Int) + 9
  let doy : Int := (153 * mp + 2).fdiv 5 + (d.day : Int) - 1
  let doe : Int := yoe * 365 + yoe.fdiv 4 - yoe.fdiv 100 + doy
  era * 146097 + doe - 719468

/-- Date from days since 1970-01-01 (Hinnant's civil-from-days). -/
def civilFromDays (z0 : Int) : PyDate :=
  let z : Int := z0 + 719468
  let era : Int := (if 0 ≤ z then z else z - 146096).fdiv 146097
  let doe : Int := z - era * 146097
  let yoe : Int := (doe - doe.fdiv 1460 + doe.fdiv 36524 - doe.fdiv 146096).fdiv 365
  let y : Int := yoe + era * 400
  let doy : Int := doe - (365 * yoe + yoe.fdiv 4 - yoe.fdiv 100)
  let mp : Int := (5 * doy + 2).fdiv 153
  let d : Int := doy - (153 * mp + 2).fdiv 5 + 1
  let m : Int := if mp < 10 then mp + 3 else mp - 9
  let yr : Int := if m ≤ 2 then y + 1 else y
  ⟨yr.toNat, m.toNat, d.toNat⟩

/-- `d + timedelta(days = n)` on the date component. -/
def addDays (d : PyDate) (n : Nat) : PyDate :=
  civilFromDays (daysFromCivil d + n)

/-! ## strptime

A faithful model of CPython `_strptime` restricted to the directives
occurring in `main.py`'s format list: `%Y %m %d %B %b`, literal
characters, and whitespace (which, as in `_strptime`, matches one or
more whitespace characters).  Directive regexes, their alternation
order, the case-insensitive match, the whole-string consumption check,
the 1900 default year and the day-of-month validation on `datetime`
construction are all reproduced. -/

inductive FTok where
  | lit (c : Char)
  | ws
  | dirY
  | dirm
  | dird
  | dirB
  | dirb
deriving DecidableEq, Repr

/-- Translate a format string to tokens (only the directives used by the
source's format list are supported; a bare `' '` becomes whitespace). -/
def fmtToks : List Char → List FTok
  | [] => []
  | '%' :: 'Y' :: rest => .dirY :: fmtToks rest
  | '%' :: 'm' :: rest => .dirm :: fmtToks rest
  | '%' :: 'd' :: rest => .dird :: fmtToks rest
  | '%' :: 'B' :: rest => .dirB :: fmtToks rest
  | '%' :: 'b' :: rest => .dirb :: fmtToks rest
  | ' ' :: rest => .ws :: fmtToks rest
  | c :: rest => .lit c :: fmtToks rest

def isDigit (c : Char) : Bool := '0' ≤ c && c ≤ '9'

def digitVal (c : Char) : Nat := c.toNat - '0'.toNat

/-- Candidates for `%d`, regex `3[01]|[12]\d|0[1-9]|[1-9]`, in
alternation order (each candidate: parsed value and remaining input). -/
def dayCands : List Char → List (Nat × List Char)
  | c1 :: c2 :: rest =>
    let two : List (Nat × List Char) :=
      if (c1 = '3' && (c2 = '0' || c2 = '1')) ||
         ((c1 = '1' || c1 = '2') && isDigit c2) ||
         (c1 = '0' && '1' ≤ c2 && c2 ≤ '9') then
        [(10 * digitVal c1 + digitVal c2, rest)]
      else []
    let one : List (Nat × List Char) :=
      if '1' ≤ c1 && c1 ≤ '9' then [(digitVal c1, c2 :: rest)] else []
    two ++ one
  | [c1] => if '1' ≤ c1 && c1 ≤ '9' then [(digitVal c1, [])] else []
  | [] => []

/-- Candidates for `%m`, regex `1[0-2]|0[1-9]|[1-9]`, in alternation order. -/
def monthCands : List Char → List (Nat × List Char)
  | c1 :: c2 :: rest =>
    let two : List (Nat × List Char) :=
      if (c1 = '1' && (c2 = '0' || c2 = '1' || c2 = '2')) ||
         (c1 = '0' && '1' ≤ c2 && c2 ≤ '9') then
        [(10 * digitVal c1 + digitVal c2, rest)]
      else []
    let one : List (Nat × List Char) :=
      if '1' ≤ c1 && c1 ≤ '9' then [(digitVal c1, c2 :: rest)] else []
    two ++ one
  | [c1] => if '1' ≤ c1 && c1 ≤ '9' then [(digitVal c1, [])] else []
  | [] => []

/-- `%Y`: exactly four digits. -/
def yearCand : List Char → Option (Nat × List Char)
  | a :: b :: c :: d :: rest =>
    if isDigit a && isDigit b && isDigit c && isDigit d then
      some (1000 * digitVal a + 100 * digitVal b + 10 * digitVal c + digitVal d, rest)
    else none
  | _ => none

def monthNamesFull : List String :=
  ["january", "february", "march", "april", "may", "june", "july",
   "august", "september", "october", "november", "december"]

def monthNamesAbbr : List String :=
  ["jan", "feb", "mar", "apr", "may", "jun", "jul", "aug", "sep", "oct", "nov", "dec"]

/-- Match a month name from a table against a prefix of the (lowercased)
input; returns the 1-based month. -/
def monthNameCand (names : List String) (xs : List Char) : Option (Nat × List Char) :=
  (List.enumFrom 1 names).findSome? (fun ni =>
    if ni.2.toList.isPrefixOf xs then some (ni.1, xs.drop ni.2.length) else none)

/-- Values captured by a partial format match. -/
structure Assign where
  y : Option Nat := none
  m : Option Nat := none
  d : Option Nat := none
deriving DecidableEq, Repr

/-- Regex-style matcher with ordered-alternation backtracking for the
two-candidate digit directives.  Input is the lowercased data string;
the match must consume the whole input (CPython raises otherwise). -/
def matchToks : List FTok → List Char → Assign → Option Assign
  | [], [], a => some a
  | [], _ :: _, _ => none
  | .lit _ :: _, [], _ => none
  | .lit c :: ts, x :: xs, a => if x = c then matchToks ts xs a else none
  | .ws :: ts, xs, a =>
    let rest := xs.dropWhile pyIsSpace
    if rest.length < xs.length then matchToks ts rest a else none
  | .dirY :: ts, xs, a =>
    match yearCand xs with
    | some (v, rest) => matchToks ts rest { a with y := some v }
    | none => none
  | .dirm :: ts, xs, a =>
    match monthCands xs with
    | [] => none
    | [(v, r)] => matchToks ts r { a with m := some v }
    | (v1, r1) :: (v2, r2) :: _ =>
      match matchToks ts r1 { a with m := some v1 } with
      | some res => some res
      | none => matchToks ts r2 { a with m := some v2 }
  | .dird :: ts, xs, a =>
    match dayCands xs with
    | [] => none
    | [(v, r)] => matchToks ts r { a with d := some v }
    | (v1, r1) :: (v2, r2) :: _ =>
      match matchToks ts r1 { a with d := some v1 } with
      | some res => some res
      | none => matchToks ts r2 { a with d := some v2 }
  | .dirB :: ts, xs, a =>
    match monthNameCand monthNamesFull xs with
    | some (v, rest) => matchToks ts rest { a with m := some v }
    | none => none
  | .dirb :: ts, xs, a =>
    match monthNameCand monthNamesAbbr xs with
    | some (v, rest) => matchToks ts rest { a with m := some v }
    | none => none

/-- `datetime.strptime(s, fmt)` restricted to the date fields: `none`
models a raised `ValueError`.  Defaults (year 1900, month 1, day 1) and
the validity check performed by `datetime.date` construction are as in
CPython. -/
def strptimeDate (s fmt : String) : Option PyDate :=
  match matchToks (fmtToks fmt.toList) (s.toList.map Char.toLower) {} with
  | none => none
  | some a =>
    let y := a.y.getD 1900
    let m := a.m.getD 1
    let d := a.d.getD 1
    if 1 ≤ y ∧ y ≤ 9999 ∧ 1 ≤ d ∧ d ≤ daysInMonth y m then some ⟨y, m, d⟩
    else none

/-! ## parse_date_string (`Bike_Agent/main.py`, lines 47-73) -/

/-- The format list tried by `parse_date_string`, in source order. -/
def dateFormats : List String :=
  ["%Y-%m-%d", "%d %B %Y", "%d %b %Y", "%d-%m-%Y", "%d/%m/%Y",
   "%B %d, %Y", "%b %d, %Y", "%d %B", "%d %b", "%B %d", "%b %d"]

/-- Environment for `parse_date_string`: the clock reads and the
third-party `dateutil.parser.parse` collaborator (`none` models a
raised parse error). -/
structure DateEnv where
  utcnow : PyDate
  nowYear : Nat
  dateutil : String → Option PyDate

/-- The explicit-format loop: first format that parses wins. -/
def tryDateFormats (date_str : String) : Option PyDate :=
  dateFormats.findSome? (fun fmt => strptimeDate (pyStrip date_str) fmt)

/-- `parse_date_string` from `Bike_Agent/main.py` (and identically
`Async_Bike_Agent/bike_main.py`): empty input defaults to today + 30
days; the explicit formats are tried in order (a 1900 year sentinel is
replaced by the current year); then `dateutil.parser.parse`; any
failure falls back to today + 30 days. -/
def parse_date_string (env : DateEnv) (date_str : String) : PyDate :=
  if date_str = "" then addDays env.utcnow 30
  else
    match tryDateFormats date_str with
    | some d => if d.year = 1900 then { d with year := env.nowYear } else d
    | none =>
      match env.dateutil date_str with
      | some d => d
      | none => addDays env.utcnow 30

/-! ## GoogleCloudTTS (`Bike_Agent/google_tts.py`)

The client object's constructor arguments become `TTSConfig`; the
process-external effects (md5 digest, Google synthesis RPC, disk
writes) become `TTSEnv` oracles; the cache directory's contents become
`TTSState` (a list of existing file paths, as produced by
`os.path.join(cache_dir, filename)`).  A raised exception anywhere in
the `try` block of `generate_speech` is caught by its `except` and
yields `None`; the model mirrors each raise site by a failure branch
returning `none`. -/

/-- Constructor arguments of `GoogleCloudTTS` (defaults as in source;
both `main.py` and `bike_main.py` instantiate
`GoogleCloudTTS(cache_dir="static/audio_cache")`). -/
structure TTSConfig where
  cache_dir : String := "static"
  enable_caching : Bool := true
deriving DecidableEq, Repr

/-- Keyword arguments of `generate_speech` (defaults as in source).
`speaking_rate`, `pitch` and `volume_gain_db` are Python floats used
only via `str()` in the cache key and opaquely by the backend, so they
are carried as their `str()` images. -/
structure TTSParams where
  voice_name : Option String := none
  language_code : Option String := none
  ssml_gender : Option String := none
  audio_encoding : String := "MP3"
  speaking_rate : String := "1.0"
  pitch : String := "0.0"
  volume_gain_db : String := "0.0"
  use_ssml : Bool := false
deriving DecidableEq, Repr

/-- The `VoiceSelectionParams` value built by lines 147-161 of
`google_tts.py`. -/
inductive VoiceSel where
  | byName (name : String)
  | byLang (language_code : String) (gender : Option String)
  | defaultVoice
deriving DecidableEq, Repr

/-- The request handed to `client.synthesize_speech` (lines 171-183). -/
structure SynthRequest where
  use_ssml : Bool
  text : String
  voice : VoiceSel
  audio_encoding : String
  speaking_rate : String
  pitch : String
  volume_gain_db : String
deriving DecidableEq, Repr

/-- Oracles for the external effects of `generate_speech`.  `md5hex`
is `hashlib.md5(·.encode()).hexdigest()` — a fixed deterministic
function, kept abstract.  `synth = none` models an exception raised by
the synthesis RPC; `writeOk fp = false` models an exception while
writing `fp` (the write is modelled as atomic). -/
structure TTSEnv where
  md5hex : String → String
  synth : SynthRequest → Option String
  writeOk : String → Bool

/-- Contents of the cache directory: the file paths that exist. -/
structure TTSState where
  files : List String
deriving DecidableEq, Repr

/-- Members of `texttospeech.AudioEncoding`; `getattr` on any other
name raises `AttributeError` (caught by the `except`). -/
def validEncoding (e : String) : Bool :=
  e = "AUDIO_ENCODING_UNSPECIFIED" || e = "LINEAR16" || e = "MP3" ||
  e = "OGG_OPUS" || e = "MULAW" || e = "ALAW"

/-- Members of `texttospeech.SsmlVoiceGender`. -/
def validGender (g : String) : Bool :=
  g = "SSML_VOICE_GENDER_UNSPECIFIED" || g = "MALE" || g = "FEMALE" || g = "NEUTRAL"

/-- `_generate_cache_key`'s hash payload:
`f"{text}_{'_'.join(str(arg) for arg in args)}"` over the eight
parameters in call order (line 134-137). -/
def cacheContent (text : String) (p : TTSParams) : String :=
  text ++ "_" ++ String.intercalate "_"
    [pyStrOpt p.voice_name, pyStrOpt p.language_code, pyStrOpt p.ssml_gender,
     p.audio_encoding, p.speaking_rate, p.pitch, p.volume_gain_db,
     pyStrBool p.use_ssml]

/-- `_generate_cache_key` (lines 213-217). -/
def generate_cache_key (env : TTSEnv) (text : String) (p : TTSParams) : String :=
  env.md5hex (cacheContent text p)

/-- `_get_file_extension` (lines 229-238): dictionary lookup on the
upper-cased encoding with default `"mp3"`. -/
def get_file_extension (audio_encoding : String) : String :=
  let e := pyUpper audio_encoding
  if e = "MP3" then "mp3"
  else if e = "LINEAR16" then "wav"
  else if e = "OGG_OPUS" then "ogg"
  else if e = "MULAW" then "wav"
  else if e = "ALAW" then "wav"
  else "mp3"

/-- `_get_cached_file` (lines 219-227): returns
`f"/{self.cache_dir}/{filename}"` when `os.path.exists` holds of
`os.path.join(self.cache_dir, filename)`. -/
def get_cached_file (cfg : TTSConfig) (st : TTSState) (cache_key audio_encoding : String) :
    Option String :=
  let ext := get_file_extension audio_encoding
  let filename := "speech_" ++ cache_key ++ "." ++ ext
  if (cfg.cache_dir ++ "/" ++ filename) ∈ st.files then
    some ("/" ++ cfg.cache_dir ++ "/" ++ filename)
  else none

/-- Voice-selection preparation (lines 146-161).  `none` models the
`AttributeError` raised by `getattr` on an unknown gender name.
Python truthiness: an explicitly passed empty string behaves like the
`None` default. -/
def mkVoiceSel (p : TTSParams) : Option VoiceSel :=
  if pyTruthyOptStr p.voice_name then some (.byName (p.voice_name.getD ""))
  else if pyTruthyOptStr p.language_code then
    if pyTruthyOptStr p.ssml_gender then
      let g := pyUpper (p.ssml_gender.getD "")
      if validGender g then some (.byLang (p.language_code.getD "") (some g))
      else none
    else some (.byLang (p.language_code.getD "") none)
  else some .defaultVoice

/-- Result of one `generate_speech` call, instrumented with the
observable effects the claims speak about: the returned value, the
cache directory contents afterwards, and how often the synthesis
backend and the cache lookup were invoked. -/
structure GSResult where
  result : Option String
  files : List String
  backendCalls : Nat
  cacheLookups : Nat
deriving DecidableEq, Repr

/-- `GoogleCloudTTS.generate_speech` (lines 99-198).  Empty/whitespace
text returns `None` before anything else; with caching enabled the
cache is consulted and a hit returned immediately; otherwise the voice
selection and audio config are prepared (`getattr` failures raise and
are caught), the backend is called, and on success the audio is
written to `os.path.join(cache_dir, filename)` while the returned
reference is the hard-coded `f"/static/audio_cache/{filename}"`.
Every raise site inside the `try` lands in the `except` branch, i.e.
returns `none`. -/
def generate_speech (cfg : TTSConfig) (env : TTSEnv) (st : TTSState)
    (text : String) (p : TTSParams) : GSResult :=
  if pyStrip text = "" then ⟨none, st.files, 0, 0⟩
  else
    let cache_key := generate_cache_key env text p
    let cached : Option String :=
      if cfg.enable_caching then get_cached_file cfg st cache_key p.audio_encoding else none
    let lookups : Nat := if cfg.enable_caching then 1 else 0
    match cached with
    | some f => ⟨some f, st.files, 0, lookups⟩
    | none =>
      match mkVoiceSel p with
      | none => ⟨none, st.files, 0, lookups⟩
      | some voice =>
        if validEncoding (pyUpper p.audio_encoding) then
          match env.synth ⟨p.use_ssml, text, voice, pyUpper p.audio_encoding,
                           p.speaking_rate, p.pitch, p.volume_gain_db⟩ with
          | none => ⟨none, st.files, 1, lookups⟩
          | some _audio =>
            let ext := get_file_extension p.audio_encoding
            let filename := "speech_" ++ cache_key ++ "." ++ ext
            let filepath := cfg.cache_dir ++ "/" ++ filename
            if env.writeOk filepath then
              ⟨some ("/static/audio_cache/" ++ filename), st.files ++ [filepath], 1, lookups⟩
            else ⟨none, st.files, 1, lookups⟩
        else ⟨none, st.files, 0, lookups⟩

/-- The configuration both applications use:
`GoogleCloudTTS(cache_dir="static/audio_cache")`. -/
def appTTSConfig : TTSConfig := { cache_dir := "static/audio_cache", enable_caching := true }

/-! ## NLU wrappers (`Bike_Agent/model.py`)

Each wrapper invokes a prompt-chain against the external LLM inside a
`try`/`except`; the chain is an oracle mapping the human-message
content to the model's string reply, with `none` modelling any
exception raised during the invocation. -/

structure NLUEnv where
  yesChain : String → Option String
  dateChain : String → Option String
  langChain : String → Option String

/-- `is_yes` (model.py lines 167-179): sends `f"check:\n\n{text}"`,
compares the stripped lower-cased reply with `'true'`; any exception
yields `False`. -/
def is_yes (env : NLUEnv) (text : String) : Bool :=
  match env.yesChain ("check:\n\n" ++ text) with
  | some r => pyLower (pyStrip r) = "true"
  | none => false

/-- `extract_dates` (model.py lines 158-165): returns the stripped
reply; any exception yields the sentinel string `"None"`. -/
def extract_dates (env : NLUEnv) (text : String) : String :=
  match env.dateChain text with
  | some r => pyStrip r
  | none => "None"

/-- `detect_language` (model.py lines 221-238): returns the reply
unchanged; any exception yields the sentinel string `"Unknown"`. -/
def detect_language (env : NLUEnv) (text : String) : String :=
  match env.langChain text with
  | some r => r
  | none => "Unknown"

/-! ## Record store (`Bike_Agent/mongofetch.py`) -/

/-- Result object of pymongo's `update_one`. -/
structure UpdateResult where
  matchedCount : Nat
  modifiedCount : Nat
  upsertedId : Bool
deriving DecidableEq, Repr

/-- Oracle for the MongoDB collaborator: whether `get_mongo_client`
yields a client (source returns `None` on construction failure), and
the outcome of the `update_one` upsert on `car_services`
(`none` models a raised exception, caught by the function's
`except`). -/
structure MongoEnv where
  clientOk : Bool
  addToSetResult : String → List String → Option UpdateResult

/-- `add_selected_services` (mongofetch.py lines 92-131) specialised to
a list-of-strings argument, which is the only call shape in the
handlers: normalizes each entry by `str(s).strip()` and drops empties,
returns `False` on empty input, missing client, or any raised
exception, and otherwise reports whether the upsert matched, modified
or inserted.  Nothing escapes its boundary. -/
def add_selected_services (env : MongoEnv) (car_number : String)
    (services_list : List String) : Bool :=
  if ¬ env.clientOk then false
  else
    let normalized := (services_list.map pyStrip).filter (fun s => s ≠ "")
    if normalized = [] then false
    else
      match env.addToSetResult car_number normalized with
      | none => false
      | some r => r.modifiedCount > 0 || r.upsertedId || r.matchedCount > 0

/-! ## Request handlers (`Bike_Agent/main.py`)

The Twilio `VoiceResponse` markup is modelled as the ordered list of
actions appended to it.  A `Gather` carries its `action` target (its
nested content is irrelevant to the claims settled here and elided). -/

inductive TwAction where
  | play (url : String)
  | say (text : String) (language : String)
  | gather (target : String)
  | redirect (target : String)
  | hangup
deriving DecidableEq, Repr

def TwAction.isGather : TwAction → Bool
  | .gather _ => true
  | _ => false

/-- A user document, as read by `user.get('car_number')`. -/
structure UserRec where
  car_number : Option String
deriving DecidableEq, Repr

/-- Environment of the Flask handlers: the NLU oracles, the TTS layer
(`tts.generate_speech(text, language_code=lang)` seen from `main.py`
as text × language → optional audio URL), the user lookup, and the
record store. -/
structure AgentEnv where
  nlu : NLUEnv
  ttsSpeech : String → String → Option String
  getUser : String → Option UserRec
  mongo : MongoEnv

/-- `generate_tts_and_play` (main.py lines 88-106): detect the language
(falsy results default to `"hi-IN"`), ask the TTS layer for an audio
URL and play it; on `None` — or on any exception, which produces the
identical markup — fall back to Twilio's built-in `say` with
`fallback_text or text` in language `hi-IN`. -/
def generate_tts_and_play (env : AgentEnv) (text fallback_text : String) : TwAction :=
  let lang := let l := detect_language env.nlu text; if l = "" then "hi-IN" else l
  match env.ttsSpeech text lang with
  | some url => .play url
  | none => .say (if fallback_text = "" then text else fallback_text) "hi-IN"

/-- The service catalog `SERVICES` (main.py lines 34-43). -/
def SERVICES : List String :=
  ["Air filter replacement", "Oil filter change", "Tire rotation",
   "Battery health check", "Bike wash", "Coolant top-up",
   "Headlight bulb replacement", "Brake pad inspection"]

/-- The negative keywords checked first by `handle_services`
(main.py line 342). -/
def negativeWords : List String := ["nahi", "nahin", "no", "nothing", "kuch nahi"]

/-- The selection loop of `handle_services` (main.py lines 356-362):
for each catalog entry (1-based), select it when its index digit or
any whitespace-separated word of its lower-cased name occurs as a
substring of the (lower-cased) transcript; duplicates collapse. -/
def chosenServices (speech : String) : List String :=
  (List.enumFrom 1 SERVICES).foldl
    (fun chosen iv =>
      if isSubstr (toString iv.1) speech ||
         (pySplitWs (pyLower iv.2)).any (fun w => isSubstr w speech) then
        if iv.2 ∈ chosen then chosen else chosen ++ [iv.2]
      else chosen)
    []

/-- The instrumented outcome of a handler: its markup response and the
record-store gateway writes it performed (arguments of each
`add_selected_services` call). -/
structure HandlerResult where
  response : List TwAction
  gatewayCalls : List (String × List String)
deriving DecidableEq, Repr

/-- `/handle-services` (main.py lines 333-386), the HandleServices
state.  The transcript is lower-cased; a negative keyword ends the
call with no record-store write; otherwise the catalog selection is
computed, persisted (best effort — the boolean result of
`add_selected_services` is discarded) when the user record carries a
truthy vehicle number, and the confirmation plus the final thank-you
are spoken before hanging up. -/
def handle_services (env : AgentEnv) (speechResult phone : String) : HandlerResult :=
  let speech := pyLower speechResult
  if negativeWords.any (fun w => isSubstr w speech) then
    { response :=
        [generate_tts_and_play env "Theek hai, sirf regular service hi hogi. Dhanyawad!"
           "Alright, only regular service then. Thank you!",
         generate_tts_and_play env
           "Aapka service appointment confirm ho gaya hai. Sarthi TVS ko choose karne ke liye dhanyawad!"
           "Your service appointment is confirmed. Thank you for choosing us!",
         .hangup],
      gatewayCalls := [] }
  else
    let chosen := chosenServices speech
    let textAndCalls : String × List (String × List String) :=
      if chosen ≠ [] then
        ("Bahut badhiya! Aapne ye services select ki hai: " ++
           String.intercalate ", " chosen ++ ". Ye sab services add kar di gayi hai.",
         match env.getUser phone with
         | some user =>
           if pyTruthyOptStr user.car_number then [(user.car_number.getD "", chosen)] else []
         | none => [])
      else
        ("Maaf kijiye, main aapki service selection samajh nahi payi. Sirf regular service confirm kar di gayi hai.",
         [])
    -- each recorded gateway call is executed; its boolean result is discarded by the source
    let _writeResults := textAndCalls.2.map (fun c => add_selected_services env.mongo c.1 c.2)
    { response :=
        [generate_tts_and_play env textAndCalls.1 "Your selected services have been added.",
         generate_tts_and_play env
           "Aapka service appointment complete confirm ho gaya hai. Sarthi TVS choose karne ke liye bahut bahut dhanyawad! Aapka din shubh ho!"
           "Your appointment is confirmed. Thank you and have a great day!",
         .hangup],
      gatewayCalls := textAndCalls.2 }

/-- The fixed welcome utterance of `/voice` (main.py line 160). -/
def voiceGreeting : String :=
  "Namaste! Main Sarthi TVS ki AI agent bol rahi hoon. Aapki Bike service ke liye call kar rahi hoon."

/-- `/voice` (main.py lines 156-169), the Greeting state: takes no
form input, speaks the fixed welcome, then redirects to `/car-number`
(the ConfirmVehicle state's endpoint). -/
def voice (env : AgentEnv) : List TwAction :=
  [generate_tts_and_play env voiceGreeting "Hello! I am calling regarding your Bike service.",
   .redirect "/car-number"]

/-! ## Concrete environments used by witnesses and counterexamples -/

/-- An NLU environment whose every chain invocation raises. -/
def nluFailEnv : NLUEnv := ⟨fun _ => none, fun _ => none, fun _ => none⟩

/-- A date environment with a fixed clock and a dateutil parser that
fails on everything. -/
def dateFailEnv : DateEnv := ⟨⟨2026, 10, 12⟩, 2026, fun _ => none⟩

/-- A date environment whose dateutil oracle behaves as the real
`dateutil.parser.parse` does on the one input the format-equivalence
claim routes to it (ordinal day, full month name, four-digit year). -/
def dateOrdinalEnv : DateEnv :=
  ⟨⟨2026, 10, 12⟩, 2026,
   fun s => if s = "5th September 2025" then some ⟨2025, 9, 5⟩ else none⟩

/-- A TTS oracle environment on which everything succeeds (the hash is
an arbitrary fixed digest). -/
def ttsOkEnv : TTSEnv :=
  ⟨fun _ => "d41d8cd98f00b204e9800998ecf8427e", fun _ => some "AUDIO", fun _ => true⟩

/-- A TTS oracle environment whose synthesis backend raises on every
request. -/
def ttsSynthFailEnv : TTSEnv :=
  ⟨fun _ => "d41d8cd98f00b204e9800998ecf8427e", fun _ => none, fun _ => true⟩

/-- A handler environment in which every external collaborator fails:
the NLU chains raise, the TTS layer yields no audio, and the record
store has no working client — while the user lookup still returns a
record with a known vehicle number. -/
def agentFailEnv : AgentEnv :=
  ⟨nluFailEnv, fun _ _ => none, fun _ => some ⟨some "GJ05AB1234"⟩, ⟨false, fun _ _ => none⟩⟩

/-! ## Sanity checks of the embedding on concrete values -/

example : addDays ⟨2026, 10, 12⟩ 30 = ⟨2026, 11, 11⟩ := by decide
example : addDays ⟨2024, 2, 28⟩ 1 = ⟨2024, 2, 29⟩ := by decide
example : addDays ⟨2025, 12, 31⟩ 1 = ⟨2026, 1, 1⟩ := by decide
example : strptimeDate "2025-09-05" "%Y-%m-%d" = some ⟨2025, 9, 5⟩ := by decide
example : strptimeDate "5th September 2025" "%d %B %Y" = none := by decide
example : strptimeDate "05/09/2025" "%d/%m/%Y" = some ⟨2025, 9, 5⟩ := by decide
example : strptimeDate "5 September" "%d %B" = some ⟨1900, 9, 5⟩ := by decide
example : strptimeDate "31-02-2025" "%d-%m-%Y" = none := by decide

/-! ## Helper lemmas about generate_speech and the response builder -/

/-- A cache hit: with caching enabled and nonempty text, a cached
artifact is returned at once, with no backend call and no state
change. -/
theorem generate_speech_hit (cfg : TTSConfig) (env : TTSEnv) (st : TTSState)
    (text : String) (p : TTSParams) (f : String)
    (ht : pyStrip text ≠ "") (hc : cfg.enable_caching = true)
    (hf : get_cached_file cfg st (generate_cache_key env text p) p.audio_encoding = some f) :
    generate_speech cfg env st text p = ⟨some f, st.files, 0, 1⟩ := by
  simp [generate_speech, ht, hc, hf]

/-- A successful cache miss: the returned reference is the hard-coded
`/static/audio_cache/` path and the cache gains exactly the file at
`os.path.join(cache_dir, filename)`. -/
theorem generate_speech_miss_success (cfg : TTSConfig) (env : TTSEnv) (st : TTSState)
    (text : String) (p : TTSParams) (ref : String)
    (ht : pyStrip text ≠ "") (hc : cfg.enable_caching = true)
    (hm : get_cached_file cfg st (generate_cache_key env text p) p.audio_encoding = none)
    (h1 : (generate_speech cfg env st text p).result = some ref) :
    ref = "/static/audio_cache/" ++
      ("speech_" ++ generate_cache_key env text p ++ "." ++ get_file_extension p.audio_encoding) ∧
    (generate_speech cfg env st text p).files =
      st.files ++ [cfg.cache_dir ++ "/" ++
        ("speech_" ++ generate_cache_key env text p ++ "." ++ get_file_extension p.audio_encoding)] := by
  rcases hv : mkVoiceSel p with _ | voice
  · simp [generate_speech, ht, hc, hm, hv] at h1
  · by_cases he : validEncoding (pyUpper p.audio_encoding)
    · rcases hsy : env.synth ⟨p.use_ssml, text, voice, pyUpper p.audio_encoding,
        p.speaking_rate, p.pitch, p.volume_gain_db⟩ with _ | audio
      · simp [generate_speech, ht, hc, hm, hv, he, hsy] at h1
      · by_cases hw : env.writeOk (cfg.cache_dir ++ "/" ++
          ("speech_" ++ generate_cache_key env text p ++ "." ++ get_file_extension p.audio_encoding))
        · refine ⟨?_, ?_⟩
          · simp [generate_speech, ht, hc, hm, hv, he, hsy, hw] at h1
            exact h1.symm
          · simp [generate_speech, ht, hc, hm, hv, he, hsy, hw]
        · simp [generate_speech, ht, hc, hm, hv, he, hsy, hw] at h1
    · simp [generate_speech, ht, hc, hm, hv, he] at h1

/-- Without a cache hit, a failing backend or failing cache write
makes `generate_speech` return `None`. -/
theorem generate_speech_nohit_none (cfg : TTSConfig) (env : TTSEnv) (st : TTSState)
    (text : String) (p : TTSParams)
    (ht : pyStrip text ≠ "")
    (hnohit : (if cfg.enable_caching then
        get_cached_file cfg st (generate_cache_key env text p) p.audio_encoding
      else none) = none)
    (h : (∀ r, env.synth r = none) ∨ (∀ fp, env.writeOk fp = false)) :
    (generate_speech cfg env st text p).result = none := by
  rcases hv : mkVoiceSel p with _ | voice
  · simp [generate_speech, ht, hnohit, hv]
  · by_cases he : validEncoding (pyUpper p.audio_encoding)
    · rcases hsy : env.synth ⟨p.use_ssml, text, voice, pyUpper p.audio_encoding,
        p.speaking_rate, p.pitch, p.volume_gain_db⟩ with _ | audio
      · simp [generate_speech, ht, hnohit, hv, he, hsy]
      · rcases h with h | h
        · rw [h] at hsy; exact absurd hsy (by simp)
        · simp [generate_speech, ht, hnohit, hv, he, hsy, h]
    · simp [generate_speech, ht, hnohit, hv, he]

/-- Under the configuration of the applications, the cache-hit
reference `f"/{cache_dir}/{filename}"` coincides with the hard-coded
fresh-synthesis reference `f"/static/audio_cache/{filename}"`. -/
theorem appPathRef (fn : String) :
    "/" ++ appTTSConfig.cache_dir ++ "/" ++ fn = "/static/audio_cache/" ++ fn := by
  show "/" ++ ("static/audio_cache" ++ ("/" ++ fn)) = "/static/audio_cache/" ++ fn
  rw [← String.append_assoc, ← String.append_assoc]
  exact congrArg (· ++ fn) (by decide)

/-- The response builder emits a play or a say action, never a
collect-next-speech (`Gather`). -/
theorem gtts_not_gather (env : AgentEnv) (t f : String) :
    TwAction.isGather (generate_tts_and_play env t f) = false := by
  simp only [generate_tts_and_play]
  split <;> rfl

/-! ## Claim theorems -/

/-- C1: under the configuration both applications use
(`cache_dir="static/audio_cache"`, caching enabled), if a call to
`generate_speech` returns a playable reference, then a second call
with identical arguments on the resulting cache state returns the very
same reference and performs zero synthesis-backend calls: the cache
key is computed by the same pure function of (text, params), so the
second call finds the cached file. -/
theorem generate_speech_cache_idempotent (env : TTSEnv) (st : TTSState)
    (text : String) (p : TTSParams) (ref : String)
    (h1 : (generate_speech appTTSConfig env st text p).result = some ref) :
    (generate_speech appTTSConfig env ⟨(generate_speech appTTSConfig env st text p).files⟩
        text p).result = some ref ∧
    (generate_speech appTTSConfig env ⟨(generate_speech appTTSConfig env st text p).files⟩
        text p).backendCalls = 0 := by
  by_cases ht : pyStrip text = ""
  · simp [generate_speech, ht] at h1
  · rcases hc : get_cached_file appTTSConfig st (generate_cache_key env text p) p.audio_encoding
      with _ | f
    · obtain ⟨href, hfiles⟩ :=
        generate_speech_miss_success appTTSConfig env st text p ref ht rfl hc h1
      have hhit : get_cached_file appTTSConfig
          ⟨(generate_speech appTTSConfig env st text p).files⟩
          (generate_cache_key env text p) p.audio_encoding =
          some ("/" ++ appTTSConfig.cache_dir ++ "/" ++
            ("speech_" ++ generate_cache_key env text p ++ "." ++
             get_file_extension p.audio_encoding)) := by
        simp [get_cached_file, hfiles]
      have h2 := generate_speech_hit appTTSConfig env
        ⟨(generate_speech appTTSConfig env st text p).files⟩ text p _ ht rfl hhit
      rw [h2]
      refine ⟨?_, rfl⟩
      rw [href, appPathRef]
    · have h2 := generate_speech_hit appTTSConfig env st text p f ht rfl hc
      have href : f = ref := by rw [h2] at h1; simpa using h1
      have hfiles : (generate_speech appTTSConfig env st text p).files = st.files := by rw [h2]
      rw [hfiles]
      have hst : (⟨st.files⟩ : TTSState) = st := rfl
      rw [hst, h2]
      exact ⟨by rw [href], rfl⟩

/-- Witness for C1: a fresh cache, an all-successful backend, a
first call that synthesizes and a second call served from the cache. -/
theorem generate_speech_cache_idempotent_witness :
    (generate_speech appTTSConfig ttsOkEnv ⟨[]⟩ "Namaste" {}).result =
      some "/static/audio_cache/speech_d41d8cd98f00b204e9800998ecf8427e.mp3" ∧
    ((generate_speech appTTSConfig ttsOkEnv
        ⟨(generate_speech appTTSConfig ttsOkEnv ⟨[]⟩ "Namaste" {}).files⟩ "Namaste" {}).result =
      some "/static/audio_cache/speech_d41d8cd98f00b204e9800998ecf8427e.mp3" ∧
     (generate_speech appTTSConfig ttsOkEnv
        ⟨(generate_speech appTTSConfig ttsOkEnv ⟨[]⟩ "Namaste" {}).files⟩ "Namaste" {}).backendCalls = 0) :=
  ⟨by decide, generate_speech_cache_idempotent ttsOkEnv ⟨[]⟩ "Namaste" {} _ (by decide)⟩

/-- C2: `generate_speech` never lets a failure escape: it is a total
function, and when the synthesis backend raises on every request or
every cache write fails, the call returns `None` — unless the request
is served entirely from the cache, in which case no failing component
is ever touched and the cached reference is returned. -/
theorem generate_speech_failure_returns_none (cfg : TTSConfig) (env : TTSEnv) (st : TTSState)
    (text : String) (p : TTSParams)
    (h : (∀ r, env.synth r = none) ∨ (∀ fp, env.writeOk fp = false)) :
    (generate_speech cfg env st text p).result = none ∨
    (cfg.enable_caching = true ∧
     (generate_speech cfg env st text p).result =
       get_cached_file cfg st (generate_cache_key env text p) p.audio_encoding) := by
  by_cases ht : pyStrip text = ""
  · left; simp [generate_speech, ht]
  · by_cases hc : cfg.enable_caching = true
    · rcases hm : get_cached_file cfg st (generate_cache_key env text p) p.audio_encoding
        with _ | f
      · left; exact generate_speech_nohit_none cfg env st text p ht (by simp [hc, hm]) h
      · right
        refine ⟨hc, ?_⟩
        rw [generate_speech_hit cfg env st text p f ht hc hm]
    · left
      exact generate_speech_nohit_none cfg env st text p ht (by simp [hc]) h

/-- Witness for C2: an empty cache and an always-raising backend make
the call return `None`. -/
theorem generate_speech_failure_returns_none_witness :
    (generate_speech appTTSConfig ttsSynthFailEnv ⟨[]⟩ "Namaste" {}).result = none ∨
    (appTTSConfig.enable_caching = true ∧
     (generate_speech appTTSConfig ttsSynthFailEnv ⟨[]⟩ "Namaste" {}).result =
       get_cached_file appTTSConfig ⟨[]⟩
         (generate_cache_key ttsSynthFailEnv "Namaste" {}) ({} : TTSParams).audio_encoding) :=
  generate_speech_failure_returns_none appTTSConfig ttsSynthFailEnv ⟨[]⟩ "Namaste" {}
    (Or.inl fun _ => rfl)

/-- C3: for every input string that is empty, or on which every
explicit date format and the natural-language parser fail (the
sentinel "None" is such an input, as the witness checks), the resolver
`parse_date_string` returns today plus 30 days; being a total function
into `PyDate`, it returns a usable date on every input and never
raises. -/
theorem parse_date_string_fallback (env : DateEnv) (s : String)
    (h : s = "" ∨ (tryDateFormats s = none ∧ env.dateutil s = none)) :
    parse_date_string env s = addDays env.utcnow 30 := by
  rcases h with h | ⟨h1, h2⟩
  · simp [parse_date_string, h]
  · by_cases hs : s = "" <;> simp [parse_date_string, hs, h1, h2]

/-- Witness for C3 at the NLU sentinel input "None". -/
theorem parse_date_string_fallback_witness :
    (("None" : String) = "" ∨
      (tryDateFormats "None" = none ∧ dateFailEnv.dateutil "None" = none)) ∧
    parse_date_string dateFailEnv "None" = addDays dateFailEnv.utcnow 30 :=
  ⟨Or.inr ⟨by decide, rfl⟩,
   parse_date_string_fallback dateFailEnv "None" (Or.inr ⟨by decide, rfl⟩)⟩

/-- C4: the three date texts "2025-09-05" (first explicit pattern),
"05/09/2025" (fifth explicit pattern) and "5th September 2025" (no
explicit pattern matches; resolved by the natural-language parser,
whose documented behaviour on this input is the hypothesis) all
resolve to September 5, 2025. -/
theorem parse_date_string_format_equivalence (env : DateEnv)
    (h : env.dateutil "5th September 2025" = some ⟨2025, 9, 5⟩) :
    parse_date_string env "2025-09-05" = ⟨2025, 9, 5⟩ ∧
    parse_date_string env "5th September 2025" = ⟨2025, 9, 5⟩ ∧
    parse_date_string env "05/09/2025" = ⟨2025, 9, 5⟩ := by
  refine ⟨?_, ?_, ?_⟩
  · have h1 : tryDateFormats "2025-09-05" = some ⟨2025, 9, 5⟩ := by decide
    simp [parse_date_string, h1]
  · have h1 : tryDateFormats "5th September 2025" = none := by decide
    simp [parse_date_string, h1, h]
  · have h1 : tryDateFormats "05/09/2025" = some ⟨2025, 9, 5⟩ := by decide
    simp [parse_date_string, h1]

/-- Witness for C4 with the dateutil oracle instantiated to its
documented behaviour on the ordinal date text. -/
theorem parse_date_string_format_equivalence_witness :
    dateOrdinalEnv.dateutil "5th September 2025" = some ⟨2025, 9, 5⟩ ∧
    (parse_date_string dateOrdinalEnv "2025-09-05" = ⟨2025, 9, 5⟩ ∧
     parse_date_string dateOrdinalEnv "5th September 2025" = ⟨2025, 9, 5⟩ ∧
     parse_date_string dateOrdinalEnv "05/09/2025" = ⟨2025, 9, 5⟩) :=
  ⟨by decide, parse_date_string_format_equivalence dateOrdinalEnv (by decide)⟩

/-- C5 counterexample: with every collaborator chain raising, `is_yes`
does return `False` and `extract_dates` does return "None", but
`detect_language` returns the sentinel string "Unknown" — not the
fixed default language of this codebase, "hi-IN" (the call sites
default `detect_language(text) or "hi-IN"` applies only to falsy
values, so "Unknown" flows onward as a language code). -/
theorem detect_language_unknown_cex :
    detect_language nluFailEnv "hello" = "Unknown" ∧
    ¬ (detect_language nluFailEnv "hello" = "hi-IN") :=
  ⟨by decide, by decide⟩

/-- C5 amended: for every input text, when the collaborator chain
raises, `is_yes` returns `False`, `extract_dates` returns the sentinel
string "None", and `detect_language` returns the fixed sentinel string
"Unknown" (which is not a language code). -/
theorem nlu_wrappers_safe_defaults (env : NLUEnv) (text : String)
    (hy : env.yesChain ("check:\n\n" ++ text) = none)
    (hd : env.dateChain text = none)
    (hl : env.langChain text = none) :
    is_yes env text = false ∧ extract_dates env text = "None" ∧
    detect_language env text = "Unknown" := by
  simp [is_yes, extract_dates, detect_language, hy, hd, hl]

/-- Witness for the amended C5 with an all-raising collaborator. -/
theorem nlu_wrappers_safe_defaults_witness :
    nluFailEnv.yesChain ("check:\n\n" ++ "haan bilkul") = none ∧
    nluFailEnv.dateChain "haan bilkul" = none ∧
    nluFailEnv.langChain "haan bilkul" = none ∧
    (is_yes nluFailEnv "haan bilkul" = false ∧
     extract_dates nluFailEnv "haan bilkul" = "None" ∧
     detect_language nluFailEnv "haan bilkul" = "Unknown") :=
  ⟨rfl, rfl, rfl, nlu_wrappers_safe_defaults nluFailEnv "haan bilkul" rfl rfl rfl⟩

/-- C6: at the HandleServices state, when the transcript is not
negative, names catalog services, and the user record carries a
vehicle number — so that the add-on upsert is attempted — and that
record-store write fails (here: `add_selected_services` returns
`False`), the handler still returns the full markup response: the
confirmation speech naming the chosen services, the final thank-you,
and a hang-up.  No exception reaches the transport boundary: the
write result is discarded by the handler and `add_selected_services`
itself swallows every error. -/
theorem handle_services_write_failure_still_confirms
    (env : AgentEnv) (speechResult phone : String) (u : UserRec) (car : String)
    (hneg : negativeWords.any (fun w => isSubstr w (pyLower speechResult)) = false)
    (hchosen : chosenServices (pyLower speechResult) ≠ [])
    (huser : env.getUser phone = some u) (hcar : u.car_number = some car) (hc : car ≠ "")
    (_hfail : add_selected_services env.mongo car (chosenServices (pyLower speechResult)) = false) :
    (handle_services env speechResult phone).gatewayCalls =
      [(car, chosenServices (pyLower speechResult))] ∧
    (handle_services env speechResult phone).response =
      [generate_tts_and_play env
         ("Bahut badhiya! Aapne ye services select ki hai: " ++
          String.intercalate ", " (chosenServices (pyLower speechResult)) ++
          ". Ye sab services add kar di gayi hai.")
         "Your selected services have been added.",
       generate_tts_and_play env
         "Aapka service appointment complete confirm ho gaya hai. Sarthi TVS choose karne ke liye bahut bahut dhanyawad! Aapka din shubh ho!"
         "Your appointment is confirmed. Thank you and have a great day!",
       TwAction.hangup] := by
  simp [handle_services, hneg, hchosen, huser, hcar, hc, pyTruthyOptStr]

/-- Witness for C6: a dead record store (no client, every update
raising), transcript "tire rotation". -/
theorem handle_services_write_failure_still_confirms_witness :
    negativeWords.any (fun w => isSubstr w (pyLower "tire rotation")) = false ∧
    chosenServices (pyLower "tire rotation") ≠ [] ∧
    agentFailEnv.getUser "+911234567890" = some ⟨some "GJ05AB1234"⟩ ∧
    add_selected_services agentFailEnv.mongo "GJ05AB1234"
      (chosenServices (pyLower "tire rotation")) = false ∧
    (handle_services agentFailEnv "tire rotation" "+911234567890").gatewayCalls =
      [("GJ05AB1234", chosenServices (pyLower "tire rotation"))] :=
  ⟨by decide, by decide, rfl, by decide,
   (handle_services_write_failure_still_confirms agentFailEnv "tire rotation" "+911234567890"
      ⟨some "GJ05AB1234"⟩ "GJ05AB1234" (by decide) (by decide) rfl rfl (by decide) (by decide)).1⟩

/-- C7: for the transcript "tire rotation" at HandleServices the
computed selection set is exactly the single catalog entry
"Tire rotation" — both tokens match but the duplicate guard collapses
them, and no other catalog entry matches — and that singleton is
exactly what is passed to the record-store gateway. -/
theorem handle_services_tire_rotation_selection
    (env : AgentEnv) (phone : String) (u : UserRec) (car : String)
    (huser : env.getUser phone = some u) (hcar : u.car_number = some car) (hc : car ≠ "") :
    chosenServices (pyLower "tire rotation") = ["Tire rotation"] ∧
    (handle_services env "tire rotation" phone).gatewayCalls = [(car, ["Tire rotation"])] := by
  refine ⟨by decide, ?_⟩
  have hneg : negativeWords.any (fun w => isSubstr w (pyLower "tire rotation")) = false := by
    decide
  have hch : chosenServices (pyLower "tire rotation") = ["Tire rotation"] := by decide
  simp [handle_services, hneg, hch, huser, hcar, hc, pyTruthyOptStr]

/-- Witness for C7 with a concrete user record. -/
theorem handle_services_tire_rotation_selection_witness :
    agentFailEnv.getUser "+911234567890" = some ⟨some "GJ05AB1234"⟩ ∧
    (chosenServices (pyLower "tire rotation") = ["Tire rotation"] ∧
     (handle_services agentFailEnv "tire rotation" "+911234567890").gatewayCalls =
       [("GJ05AB1234", ["Tire rotation"])]) :=
  ⟨rfl, handle_services_tire_rotation_selection agentFailEnv "+911234567890"
    ⟨some "GJ05AB1234"⟩ "GJ05AB1234" rfl rfl (by decide)⟩

/-- C9: the negative-intent check has priority: for every transcript
containing any negative keyword as a substring, `handle_services`
performs no record-store write at all — even when the transcript also
names catalog services — and responds with the two closing utterances
followed by a hang-up. -/
theorem handle_services_negative_priority (env : AgentEnv) (speechResult phone : String)
    (h : negativeWords.any (fun w => isSubstr w (pyLower speechResult)) = true) :
    (handle_services env speechResult phone).gatewayCalls = [] ∧
    (handle_services env speechResult phone).response =
      [generate_tts_and_play env "Theek hai, sirf regular service hi hogi. Dhanyawad!"
         "Alright, only regular service then. Thank you!",
       generate_tts_and_play env
         "Aapka service appointment confirm ho gaya hai. Sarthi TVS ko choose karne ke liye dhanyawad!"
         "Your service appointment is confirmed. Thank you for choosing us!",
       TwAction.hangup] := by
  simp [handle_services, h]

/-- Witness for C9 on a transcript that both names a catalog service
and contains a negative keyword. -/
theorem handle_services_negative_priority_witness :
    negativeWords.any (fun w => isSubstr w (pyLower "Nahi, tire rotation nahi chahiye")) = true ∧
    (handle_services agentFailEnv "Nahi, tire rotation nahi chahiye" "+911234567890").gatewayCalls
      = [] :=
  ⟨by decide,
   (handle_services_negative_priority agentFailEnv "Nahi, tire rotation nahi chahiye"
      "+911234567890" (by decide)).1⟩

/-- C8 counterexample: the Greeting response of `/voice` contains no
collect-next-speech (`Gather`) action at all; after the welcome speech
it issues a redirect to `/car-number` (the ConfirmVehicle state), so
the claim that the welcome is followed by a collect-next-speech
directive targeting ConfirmVehicle is false of the code. -/
theorem voice_redirect_not_gather_cex :
    voice agentFailEnv =
      [TwAction.say "Hello! I am calling regarding your Bike service." "hi-IN",
       TwAction.redirect "/car-number"] ∧
    (voice agentFailEnv).all (fun a => !TwAction.isGather a) = true :=
  ⟨by decide, by decide⟩

/-- C8 amended: the Greeting turn takes no input and its response is
the fixed welcome utterance followed by a redirect directive whose
action target is the ConfirmVehicle state's endpoint `/car-number`;
it contains no collect-next-speech action (that directive is issued by
the ConfirmVehicle handler itself). -/
theorem voice_greeting_redirect (env : AgentEnv) :
    voice env =
      [generate_tts_and_play env voiceGreeting "Hello! I am calling regarding your Bike service.",
       TwAction.redirect "/car-number"] ∧
    (voice env).all (fun a => !TwAction.isGather a) = true := by
  refine ⟨rfl, ?_⟩
  simp only [voice, List.all_cons, List.all_nil, gtts_not_gather, Bool.not_false,
    Bool.true_and, Bool.and_true]
  rfl

/-- C10: on text that is empty or whitespace-only (Python
`not text.strip()`), `generate_speech` returns `None` at once: the
state is unchanged, the cache is never consulted and the backend is
never called. -/
theorem generate_speech_empty_text (cfg : TTSConfig) (env : TTSEnv) (st : TTSState)
    (text : String) (p : TTSParams) (h : pyStrip text = "") :
    generate_speech cfg env st text p = ⟨none, st.files, 0, 0⟩ := by
  simp [generate_speech, h]

/-- Witness for C10 on a whitespace-only text, with a nonempty cache
and an all-successful backend. -/
theorem generate_speech_empty_text_witness :
    pyStrip "  \t " = "" ∧
    generate_speech appTTSConfig ttsOkEnv ⟨["static/audio_cache/speech_x.mp3"]⟩ "  \t " {} =
      ⟨none, ["static/audio_cache/speech_x.mp3"], 0, 0⟩ :=
  ⟨by decide,
   generate_speech_empty_text appTTSConfig ttsOkEnv ⟨["static/audio_cache/speech_x.mp3"]⟩
     "  \t " {} (by decide)⟩
